import Mathlib

/-!
Verification of the execution and conversion orchestration subsystem of the
Test_Automation_Platform repository, as a shallow embedding in Lean 4.

The definitions below are translated from the Python sources:
  * `app/models.py`       — `ExecutionStatus`, `ExecutionResult` columns
  * `app/execution.py`    — `RobotFrameworkExecutor` and async wrappers
  * `app/routes/execution.py` — `execute_single_script`, `cancel_execution`
  * `app/conversion.py`   — `PlaywrightToRobotConverter`
  * `app/routes/recording.py` — `convert_script_sync`
  * `app/playback.py`     — recording session registry
External effects (the subprocess runner, the filesystem, the HTTP generation
service, the database commits) are made explicit as environment records whose
fields describe the observable outcome of each effect; the control flow of the
Python code is reproduced on top of them.
-/

/-! ## Timestamps

Python `datetime` values either carry timezone information (`aware := true`,
`datetime.now(timezone.utc)`) or not (`aware := false`).  The SQLAlchemy
`db.DateTime` columns of `app/models.py` store no timezone, so a timestamp
loaded back from the database is naive; `dbRoundTrip` models that round trip.
Python refuses to subtract a naive datetime from an aware one (`TypeError`). -/

structure Timestamp where
  val : Int
  aware : Bool
deriving DecidableEq, Repr

/-- Python datetime subtraction (`.total_seconds()`): defined only when both
operands have the same awareness, otherwise a `TypeError` is raised. -/
def pySubSeconds (a b : Timestamp) : Except String Int :=
  if a.aware = b.aware then Except.ok (a.val - b.val)
  else Except.error "TypeError: cannot subtract offset-naive and offset-aware datetimes"

/-- `t.replace(tzinfo=timezone.utc)` applied when `t.tzinfo is None`
(the normalization in `app/execution.py` lines 63-68). -/
def normalizeAware (t : Timestamp) : Timestamp :=
  if t.aware then t else { t with aware := true }

/-- Storing a timestamp in a `db.DateTime` column and loading it back strips
the timezone information (SQLite stores no offset). -/
def dbRoundTrip (t : Timestamp) : Timestamp :=
  { t with aware := false }

/-! ## `app/models.py` — the execution result ledger -/

/-- `ExecutionStatus` enum of `app/models.py` lines 130-136. -/
inductive ExecutionStatus
  | pending
  | running
  | passed
  | failed
  | error
  | cancelled
deriving DecidableEq, Repr

/-- A status from which the state machine never moves on. -/
def ExecutionStatus.isTerminal : ExecutionStatus → Bool
  | .passed => true
  | .failed => true
  | .error => true
  | _ => false

/-- The columns of the `ExecutionResult` model (`app/models.py` lines 138-157)
that the execution core reads or writes.  `pass_rate` is a stored `db.Float`
column, not a computed property.  Counter columns default to `0`, `pass_rate`
and the path columns are nullable. -/
structure ExecutionResult where
  status : ExecutionStatus
  started_at : Option Timestamp
  completed_at : Option Timestamp
  duration_seconds : Option Int
  tests_total : Nat
  tests_passed : Nat
  tests_failed : Nat
  pass_rate : Option Int
  error_message : Option String
  log_path : Option String
  report_path : Option String
  output_xml_path : Option String
  video_path : Option String
  is_suite_run : Bool
  headless : Bool
deriving DecidableEq, Repr

/-- A freshly inserted `ExecutionResult` row: status `PENDING`, `started_at`
filled by the column default `datetime.now(timezone.utc)` at insert time (and
naive once read back), all other nullable columns `NULL`, counters `0`. -/
def mkPendingRecord (insert_time : Int) (is_suite headless : Bool) : ExecutionResult :=
  { status := .pending
    started_at := some ⟨insert_time, false⟩
    completed_at := none
    duration_seconds := none
    tests_total := 0
    tests_passed := 0
    tests_failed := 0
    pass_rate := none
    error_message := none
    log_path := none
    report_path := none
    output_xml_path := none
    video_path := none
    is_suite_run := is_suite
    headless := headless }

/-! ## `app/execution.py` — result parsing and script execution -/

/-- The relevant state of a `TestScript` row for a run
(`app/models.py` lines 89-103): its conversion status, the path column for the
translated Robot Framework artifact, and whether that file exists on disk. -/
structure ScriptRow where
  conversion_status : String
  robot_script_path : Option String
  path_exists : Bool
deriving DecidableEq, Repr

/-- Outcome of looking at `output.xml` in the run's output directory
(`_parse_robot_results`, `app/execution.py` lines 318-336):
  * `absent`        — `output_xml.exists()` is false;
  * `raisesOnParse` — the file exists but `get_model` / attribute access raised;
  * `noSuites`      — parsed, but `model.suites` is empty, so no stats are read;
  * `suiteStats`    — parsed, statistics of the first suite. -/
inductive XmlParse
  | absent
  | raisesOnParse (msg : String)
  | noSuites
  | suiteStats (total passed failed : Nat)
deriving DecidableEq, Repr

/-- The observable contents of the run's output directory. -/
structure OutputDir where
  xml : XmlParse
  log_exists : Bool
  report_exists : Bool
deriving DecidableEq, Repr

/-- The dictionary built by `_parse_robot_results` / `_run_robot_script`
(`app/execution.py`): a tagged result with counters and artifact paths. -/
structure ParseResult where
  success : Bool
  tests_passed : Nat
  tests_failed : Nat
  tests_total : Nat
  all_passed : Bool
  output_xml_path : Option String
  log_path : Option String
  report_path : Option String
  video_path : Option String
  error : Option String
deriving DecidableEq, Repr

/-- The error dictionary `{'success': False, 'error': msg}`. -/
def ParseResult.failure (msg : String) : ParseResult :=
  { success := false
    tests_passed := 0
    tests_failed := 0
    tests_total := 0
    all_passed := false
    output_xml_path := none
    log_path := none
    report_path := none
    video_path := none
    error := some msg }

/-- `RobotFrameworkExecutor._parse_robot_results` (`app/execution.py`
lines 294-345).  The base result is built with counters `0` and
`all_passed := return_code == 0`; statistics are read from `output.xml` only
when the file exists; the 1-test fallback derived from the return code fires
only when the file exists but parsing raised.  The whole body is wrapped in
`try`, and no modelled operation in it can raise, so `success` is `true`. -/
def parse_robot_results (dir : OutputDir) (return_code : Int) : ParseResult :=
  let base : ParseResult :=
    { success := true
      tests_passed := 0
      tests_failed := 0
      tests_total := 0
      all_passed := return_code = 0
      output_xml_path := if dir.xml ≠ .absent then some "output.xml" else none
      log_path := if dir.log_exists then some "log.html" else none
      report_path := if dir.report_exists then some "report.html" else none
      video_path := none
      error := none }
  match dir.xml with
  | .absent => base
  | .noSuites => base
  | .raisesOnParse _ =>
      { base with
        tests_total := 1
        tests_passed := if return_code = 0 then 1 else 0
        tests_failed := if return_code = 0 then 0 else 1 }
  | .suiteStats total passed failed =>
      { base with
        tests_total := total
        tests_passed := passed
        tests_failed := failed
        all_passed := failed = 0 }

/-- The environment of one executor run: the runner's return code, the output
directory it produced, an optional relative video path found by
`_handle_video_output`, whether `run_cli` itself raised, and the wall-clock
readings taken at record insertion, at the `running` transition and at
completion. -/
structure RunEnv where
  return_code : Int
  out_dir : OutputDir
  video_rel_path : Option String
  runner_raises : Option String
  create_time : Int
  start_time : Int
  end_time : Int
deriving DecidableEq, Repr

/-- `RobotFrameworkExecutor._run_robot_script` (`app/execution.py`
lines 178-214): missing artifact path or file gives the error dictionary; an
exception from the runner is caught and returned as an error dictionary;
otherwise the parsed result, with the video path attached when one was found. -/
def run_robot_script (script : ScriptRow) (env : RunEnv) : ParseResult :=
  if script.robot_script_path = none ∨ script.path_exists = false then
    ParseResult.failure "Robot Framework script file not found"
  else
    match env.runner_raises with
    | some msg => ParseResult.failure msg
    | none =>
        let result := parse_robot_results env.out_dir env.return_code
        match env.video_rel_path with
        | some v => { result with video_path := some v }
        | none => result

/-- `RobotFrameworkExecutor.execute_script` (`app/execution.py` lines 33-108),
returning the final record together with the sequence of database states the
record goes through (one entry per `db.session.commit()`).  The `started_at`
read back after the second commit is naive; the code normalizes both
timestamps to aware UTC before subtracting. -/
def execute_script_run (script : ScriptRow) (headless : Bool) (env : RunEnv) :
    ExecutionResult × List ExecutionResult :=
  let rec0 := mkPendingRecord env.create_time false headless
  let startedMem : Timestamp := ⟨env.start_time, true⟩
  let rec1 := { rec0 with status := .running, started_at := some (dbRoundTrip startedMem) }
  let result := run_robot_script script env
  let completedMem : Timestamp := ⟨env.end_time, true⟩
  let startedLoaded := dbRoundTrip startedMem
  let dur : Option Int :=
    match pySubSeconds (normalizeAware completedMem) (normalizeAware startedLoaded) with
    | Except.ok d => some d
    | Except.error _ => none
  let recF :=
    if result.success then
      { rec1 with
        status := if result.all_passed then .passed else .failed
        completed_at := some (dbRoundTrip completedMem)
        duration_seconds := dur
        tests_passed := result.tests_passed
        tests_failed := result.tests_failed
        tests_total := result.tests_total
        log_path := result.log_path
        report_path := result.report_path
        output_xml_path := result.output_xml_path
        video_path := result.video_path }
    else
      { rec1 with
        status := .error
        error_message := result.error
        completed_at := some (dbRoundTrip completedMem)
        duration_seconds := dur }
  (recF, [rec0, rec1, recF])

/-- The final record of a single-script execution. -/
def execute_script (script : ScriptRow) (headless : Bool) (env : RunEnv) : ExecutionResult :=
  (execute_script_run script headless env).1

/-- `RobotFrameworkExecutor._run_robot_suite` (`app/execution.py`
lines 216-253): scripts without an existing robot file are filtered out; an
empty remainder gives the error dictionary with message
`No valid Robot Framework scripts found`. -/
def run_robot_suite (scripts : List ScriptRow) (env : RunEnv) : ParseResult :=
  let valid := scripts.filter (fun s => s.robot_script_path.isSome && s.path_exists)
  if valid.isEmpty then
    ParseResult.failure "No valid Robot Framework scripts found"
  else
    match env.runner_raises with
    | some msg => ParseResult.failure msg
    | none => parse_robot_results env.out_dir env.return_code

/-- `RobotFrameworkExecutor.execute_suite` (`app/execution.py` lines 110-176):
the same record lifecycle as `execute_script_run`, over the suite runner. -/
def execute_suite_run (scripts : List ScriptRow) (headless : Bool) (env : RunEnv) :
    ExecutionResult × List ExecutionResult :=
  let rec0 := mkPendingRecord env.create_time true headless
  let startedMem : Timestamp := ⟨env.start_time, true⟩
  let rec1 := { rec0 with status := .running, started_at := some (dbRoundTrip startedMem) }
  let result := run_robot_suite scripts env
  let completedMem : Timestamp := ⟨env.end_time, true⟩
  let dur : Option Int :=
    match pySubSeconds (normalizeAware completedMem) (normalizeAware (dbRoundTrip startedMem)) with
    | Except.ok d => some d
    | Except.error _ => none
  let recF :=
    if result.success then
      { rec1 with
        status := if result.all_passed then .passed else .failed
        completed_at := some (dbRoundTrip completedMem)
        duration_seconds := dur
        tests_passed := result.tests_passed
        tests_failed := result.tests_failed
        tests_total := result.tests_total
        log_path := result.log_path
        report_path := result.report_path
        output_xml_path := result.output_xml_path }
    else
      { rec1 with
        status := .error
        error_message := result.error
        completed_at := some (dbRoundTrip completedMem)
        duration_seconds := dur }
  (recF, [rec0, rec1, recF])

/-- `execute_suite_async` (`app/execution.py` lines 390-427): the scripts are
filtered to `conversion_status == 'completed'`; when none remain the function
only logs a warning and returns — no `ExecutionResult` record is created. -/
def execute_suite_async (scripts : List ScriptRow) (headless : Bool) (env : RunEnv) :
    Option ExecutionResult :=
  let converted := scripts.filter (fun s => s.conversion_status == "completed")
  if converted.isEmpty then none
  else some (execute_suite_run converted headless env).1

/-! ## `app/routes/execution.py` — the execute route and cancellation -/

/-- Request-level context of a route call: CSRF token validity, project
access, and whether `Config.USE_BACKGROUND_JOBS` is on. -/
structure RouteEnv where
  csrf_ok : Bool
  can_access : Bool
  use_background : Bool
deriving DecidableEq, Repr

/-- The JSON response of `execute_single_script`. -/
inductive ExecuteResponse
  | failure (msg : String)
  | backgroundStarted
  | syncCompleted (status : ExecutionStatus)
deriving DecidableEq, Repr

/-- Route `execute_single_script` (`app/routes/execution.py` lines 130-187):
CSRF and access checks, then the executability checks of lines 147-152, then
dispatch to the executor (in a background thread or synchronously — either way
`execute_script` is what eventually runs).  The second component collects every
`ExecutionResult` database state produced by the call. -/
def execute_single_script (renv : RouteEnv) (script : ScriptRow) (headless : Bool)
    (env : RunEnv) : ExecuteResponse × List ExecutionResult :=
  if renv.csrf_ok = false then
    (.failure "Security token expired", [])
  else if renv.can_access = false then
    (.failure "No permission to execute this script", [])
  else if script.conversion_status ≠ "completed" ∨ script.robot_script_path = none then
    (.failure "Script is not ready for execution. Please ensure it has been converted to Robot Framework format.", [])
  else if script.path_exists = false then
    (.failure "Robot Framework script file not found", [])
  else if renv.use_background then
    (.backgroundStarted, (execute_script_run script headless env).2)
  else
    (.syncCompleted (execute_script_run script headless env).1.status,
     (execute_script_run script headless env).2)

/-- The JSON response of the cancel route. -/
inductive CancelResponse
  | failure (msg : String)
  | success
deriving DecidableEq, Repr

/-- Route `cancel_execution` (`app/routes/execution.py` lines 460-498).
`now` is `datetime.now(timezone.utc)` (aware).  Statuses other than `PENDING`
and `RUNNING` are rejected.  Otherwise the record is marked `ERROR` with
message `Cancelled by <username>` and, when `started_at` is present, the code
computes `completed_at - started_at` directly — `completed_at` is the aware
in-memory value and `started_at` is whatever the database returned, with no
normalization; if that subtraction raises, the `except` branch rolls the
session back, leaving the stored record unchanged.  A committed
`completed_at` is naive after the round trip. -/
def cancel_execution (renv : RouteEnv) (record : ExecutionResult) (now_val : Int)
    (actor : String) : CancelResponse × ExecutionResult :=
  if renv.csrf_ok = false then
    (.failure "Security token expired", record)
  else if renv.can_access = false then
    (.failure "Access denied", record)
  else if record.status ≠ .pending ∧ record.status ≠ .running then
    (.failure "Execution cannot be cancelled in its current state", record)
  else
    let now : Timestamp := ⟨now_val, true⟩
    let rec1 := { record with
      status := .error
      error_message := some ("Cancelled by " ++ actor)
      completed_at := some (dbRoundTrip now) }
    match record.started_at with
    | none => (.success, rec1)
    | some st =>
        match pySubSeconds now st with
        | Except.ok d => (.success, { rec1 with duration_seconds := some d })
        | Except.error msg => (.failure ("Failed to cancel execution: " ++ msg), record)

/-! ## `app/conversion.py` — Playwright → Robot Framework translation -/

/-- `startsWithList needle hay`: `hay` begins with `needle`. -/
def startsWithList : List Char → List Char → Bool
  | [], _ => true
  | _ :: _, [] => false
  | a :: as, b :: bs => a == b && startsWithList as bs

/-- Substring search over character lists (Python `needle in hay`). -/
def containsSub : List Char → List Char → Bool
  | [], needle => needle.isEmpty
  | h :: t, needle => startsWithList needle (h :: t) || containsSub t needle

/-- Python string containment `needle in hay`. -/
def strContainsSub (hay needle : String) : Bool :=
  containsSub hay.data needle.data

/-- The prefix injected by `_enhance_robot_script` when the settings header is
missing. -/
def settingsInjection : String := "*** Settings ***\nLibrary    Browser\n\n"

/-- `PlaywrightToRobotConverter._enhance_robot_script` (`app/conversion.py`
lines 130-145).  The loop over `required_sections` only logs a warning for a
missing header; the only mutation is the `*** Settings ***` prefix injection —
there is no corresponding injection for `*** Test Cases ***`. -/
def enhance_robot_script (robot_script : String) : String :=
  if strContainsSub robot_script "*** Settings ***" then robot_script
  else settingsInjection ++ robot_script

/-- How the call to the external generation service went
(`convert_playwright_to_robot`, `app/conversion.py` lines 36-82):
  * `requestRaises` — `requests.post` (or reading the response) raised;
  * `httpError`     — a non-200 HTTP status;
  * `badJson`       — `json.loads` on the message content raised;
  * `missingRobotCode` — valid JSON without a `robot_code` key;
  * `ok`            — a `robot_code` string was returned. -/
inductive AIOutcome
  | requestRaises (msg : String)
  | httpError (status : Int) (text : String)
  | badJson (msg : String)
  | missingRobotCode
  | ok (robot_code : String)
deriving DecidableEq, Repr

/-- The tagged dictionary returned by `convert_playwright_to_robot`. -/
inductive ConvResult
  | ok (robot_script : String)
  | err (msg : String)
deriving DecidableEq, Repr

/-- `PlaywrightToRobotConverter.convert_playwright_to_robot`
(`app/conversion.py` lines 29-82).  `endpoint` and `api_key` come from the
environment; `deployment` defaults to `"gpt-4o"` and is therefore always
truthy, so only the first two decide `is_configured`.  Every exception inside
the `try` is caught and turned into an error dictionary; the function always
returns a tagged result. -/
def convert_playwright_to_robot (endpoint api_key : Option String)
    (outcome : AIOutcome) : ConvResult :=
  if endpoint = none ∨ api_key = none then
    .err "Azure OpenAI credentials not configured. Please check your API credentials."
  else
    match outcome with
    | .requestRaises msg => .err ("AI conversion failed: " ++ msg)
    | .httpError status text =>
        .err ("Azure OpenAI API error: " ++ toString status ++ " " ++ text)
    | .badJson msg => .err ("AI conversion failed: " ++ msg)
    | .missingRobotCode => .err "Invalid response format from AI service"
    | .ok robot_code => .ok (enhance_robot_script robot_code)

/-! ## `app/routes/recording.py` — `convert_script_sync` -/

/-- The `TestScript` columns owned by the translation boundary. -/
structure ScriptConvRow where
  conversion_status : String
  conversion_error : Option String
  playwright_script_path : Option String
  playwright_exists : Bool
  robot_script_path : Option String
deriving DecidableEq, Repr

/-- The environment of one `convert_script_sync` call: the outcome of
`read_file_safely` on the Playwright source, the generation-service
configuration and outcome, the outcome of `write_file_safely` on the robot
artifact (`none` = written), and the target path. -/
structure ConvEnv where
  read_result : Except String String
  endpoint : Option String
  api_key : Option String
  ai : AIOutcome
  write_error : Option String
  robot_file_path : String
deriving Repr

/-- The tagged dictionary returned by `convert_script_sync`. -/
inductive SyncConvResult
  | ok
  | err (msg : String)
deriving DecidableEq, Repr

/-- `convert_script_sync` (`app/routes/recording.py` lines 332-420), returning
the tagged result together with the updated `TestScript` row (`none` when no
script with the given id exists).  Every failure branch sets
`conversion_status := "failed"` and populates `conversion_error`; the
modelled inner operations all return tagged results, so the function is
total — nothing escapes the boundary. -/
def convert_script_sync (scr : Option ScriptConvRow) (env : ConvEnv) :
    SyncConvResult × Option ScriptConvRow :=
  match scr with
  | none => (.err "Script not found", none)
  | some s0 =>
      let s1 := { s0 with conversion_status := "processing", conversion_error := none }
      if s1.playwright_script_path = none ∨ s1.playwright_exists = false then
        (.err "Playwright script file not found",
         some { s1 with conversion_status := "failed",
                        conversion_error := some "Playwright script file not found" })
      else
        match env.read_result with
        | Except.error e =>
            (.err e,
             some { s1 with conversion_status := "failed",
                            conversion_error := some ("Failed to read Playwright script: " ++ e) })
        | Except.ok _content =>
            match convert_playwright_to_robot env.endpoint env.api_key env.ai with
            | ConvResult.ok _robot =>
                match env.write_error with
                | none =>
                    (.ok,
                     some { s1 with robot_script_path := some env.robot_file_path,
                                    conversion_status := "completed",
                                    conversion_error := none })
                | some we =>
                    (.err we,
                     some { s1 with conversion_status := "failed",
                                    conversion_error := some ("Failed to save Robot script: " ++ we) })
            | ConvResult.err msg =>
                (.err msg,
                 some { s1 with conversion_status := "failed",
                                conversion_error := some msg })

/-! ## `app/playback.py` — the recording session registry -/

/-- The observable state of one `PlaywrightRecorder`: whether the supervised
process is alive, the `is_recording` flag, and whether the output file was
written with content (read when the session is stopped). -/
structure Recorder where
  process_alive : Bool
  is_recording : Bool
  has_output_content : Bool
deriving DecidableEq, Repr

/-- `PlaywrightRecorder.cleanup` (`app/playback.py` lines 193-204): the
process is force-killed and the flag cleared; the registry entry itself is not
touched. -/
def Recorder.cleanup (r : Recorder) : Recorder :=
  { r with process_alive := false, is_recording := false }

/-- The tagged dictionary returned by `PlaywrightRecorder.stop_recording`. -/
structure StopResult where
  success : Bool
  error : Option String
deriving DecidableEq, Repr

/-- `PlaywrightRecorder.stop_recording` (`app/playback.py` lines 89-138):
with no live recording it fails with `No active recording session`; otherwise
the process is terminated (graceful, escalating to kill) and the result is
success exactly when the output file has content. -/
def Recorder.stop_recording (r : Recorder) : StopResult × Recorder :=
  if r.process_alive = false ∨ r.is_recording = false then
    ({ success := false, error := some "No active recording session" }, r)
  else
    let r1 := { r with process_alive := false, is_recording := false }
    if r.has_output_content then
      ({ success := true, error := none }, r1)
    else
      ({ success := false, error := some "No script content was generated" }, r1)

/-- The module-level `_active_recordings` map, keyed by
`f"{project_name}_{script_name}"`. -/
abbrev Registry := List (String × Recorder)

/-- Lookup in the registry (`session_key in _active_recordings`). -/
def regFind (reg : Registry) (key : String) : Option Recorder :=
  match reg with
  | [] => none
  | (k, r) :: rest => if k = key then some r else regFind rest key

/-- `_active_recordings[session_key] = recorder` (replace or insert). -/
def regSet (reg : Registry) (key : String) (r : Recorder) : Registry :=
  match reg with
  | [] => [(key, r)]
  | (k, r0) :: rest => if k = key then (k, r) :: rest else (k, r0) :: regSet rest key r

/-- `del _active_recordings[session_key]`. -/
def regDel (reg : Registry) (key : String) : Registry :=
  match reg with
  | [] => []
  | (k, r0) :: rest => if k = key then rest else (k, r0) :: regDel rest key

/-- Number of active sessions registered under `key`: a session counts as
active when its recorder still holds a live recording process. -/
def activeCount (reg : Registry) (key : String) : Nat :=
  match regFind reg key with
  | some r => if r.process_alive && r.is_recording then 1 else 0
  | none => 0

/-- `start_recording_session` (`app/playback.py` lines 209-224): an existing
recorder under the same key is cleaned up in place; a new recorder is started
(`launch_ok` tells whether `subprocess.Popen` succeeded), and only on success
does it replace the registry entry.  `content` is whether the new session will
produce output content.  Returns the success flag and the new registry. -/
def start_recording_session (reg : Registry) (key : String) (launch_ok : Bool)
    (content : Bool) : Bool × Registry :=
  let reg1 :=
    match regFind reg key with
    | some r => regSet reg key r.cleanup
    | none => reg
  if launch_ok then
    (true, regSet reg1 key { process_alive := true, is_recording := true,
                             has_output_content := content })
  else
    (false, reg1)

/-- `stop_recording_session` (`app/playback.py` lines 226-239): an unknown key
fails with `No active recording session found`; otherwise the recorder is
stopped and the registry entry is deleted unconditionally — whatever the stop
result was. -/
def stop_recording_session (reg : Registry) (key : String) : StopResult × Registry :=
  match regFind reg key with
  | none => ({ success := false, error := some "No active recording session found" }, reg)
  | some r =>
      let (res, _) := r.stop_recording
      (res, regDel reg key)

/-! ## Helper lemmas -/

theorem startsWithList_self_append (n m : List Char) :
    startsWithList n (n ++ m) = true := by
  induction n with
  | nil => rfl
  | cons a tl ih => simp [startsWithList, ih]

theorem containsSub_of_startsWith (hay needle : List Char)
    (h : startsWithList needle hay = true) : containsSub hay needle = true := by
  cases hay with
  | nil =>
      cases needle with
      | nil => rfl
      | cons a tl => simp [startsWithList] at h
  | cons b t => simp [containsSub, h]

theorem string_data_append (a b : String) : (a ++ b).data = a.data ++ b.data := by
  cases a
  cases b
  rfl

theorem regFind_regSet (reg : Registry) (key : String) (v : Recorder) :
    regFind (regSet reg key v) key = some v := by
  induction reg with
  | nil => simp [regSet, regFind]
  | cons p rest ih =>
      obtain ⟨k, r⟩ := p
      by_cases h : k = key
      · simp [regSet, regFind, h]
      · simp [regSet, regFind, h, ih]

theorem regFind_eq_none_of_not_mem (reg : Registry) (key : String)
    (h : key ∉ reg.map Prod.fst) : regFind reg key = none := by
  induction reg with
  | nil => rfl
  | cons p rest ih =>
      obtain ⟨k, r⟩ := p
      simp only [List.map_cons, List.mem_cons, not_or] at h
      have hk : k ≠ key := fun hkk => h.1 hkk.symm
      simp [regFind, hk, ih h.2]

theorem regFind_regDel_self (reg : Registry) (key : String)
    (h : (reg.map Prod.fst).Nodup) : regFind (regDel reg key) key = none := by
  induction reg with
  | nil => rfl
  | cons p rest ih =>
      obtain ⟨k, r⟩ := p
      simp only [List.map_cons, List.nodup_cons] at h
      by_cases hk : k = key
      · subst hk
        simp only [regDel, if_pos rfl]
        exact regFind_eq_none_of_not_mem rest k h.1
      · simp [regDel, hk, regFind, ih h.2]

/-- The final record of a single-script run always carries a terminal status,
and the sequence of committed states is exactly
`pending → running → terminal`. -/
theorem execute_script_run_trace (script : ScriptRow) (headless : Bool) (env : RunEnv) :
    (execute_script_run script headless env).2.map ExecutionResult.status =
      [.pending, .running, (execute_script_run script headless env).1.status] ∧
    (execute_script_run script headless env).1.status.isTerminal = true := by
  unfold execute_script_run
  dsimp only
  refine ⟨rfl, ?_⟩
  split
  · split <;> rfl
  · rfl

/-! ## Claim theorems -/

/-- C1 counterexample: a single run whose runner returns exit code 0 with no
`output.xml` in the output directory ends with counters
`tests_total = 0, tests_passed = 0, tests_failed = 0` — not the
`1 / 1 / 0` the claim states (the return-code fallback fires only when the
file exists but cannot be parsed).  The record still ends `passed`. -/
theorem c1_counterexample :
    let record := execute_script ⟨"completed", some "s.robot", true⟩ true
      ⟨0, ⟨XmlParse.absent, false, false⟩, none, none, 10, 20, 30⟩
    record.status = ExecutionStatus.passed ∧
      record.tests_total = 0 ∧ record.tests_passed = 0 ∧ record.tests_failed = 0 ∧
      ¬ (record.tests_total = 1 ∧ record.tests_passed = 1 ∧ record.tests_failed = 0) := by
  decide

/-- C1 (amended): when the runner returns exit code 0 and `output.xml` is
absent, result parsing yields a tagged success (never raises) with counters
`0 / 0 / 0`, the record ends in status `passed`, and the
`tests_total = 1, tests_passed = 1, tests_failed = 0` fallback applies exactly
to the runs where `output.xml` exists but fails to parse. -/
theorem c1_amended (script : ScriptRow) (env : RunEnv)
    (hpath : script.robot_script_path.isSome = true)
    (hex : script.path_exists = true)
    (hrun : env.runner_raises = none)
    (hxml : env.out_dir.xml = XmlParse.absent)
    (hrc : env.return_code = 0) :
    (execute_script script true env).status = ExecutionStatus.passed ∧
    (execute_script script true env).tests_total = 0 ∧
    (execute_script script true env).tests_passed = 0 ∧
    (execute_script script true env).tests_failed = 0 ∧
    (parse_robot_results env.out_dir env.return_code).success = true ∧
    (∀ (msg : String) (lg rp : Bool),
      (parse_robot_results ⟨XmlParse.raisesOnParse msg, lg, rp⟩ 0).tests_total = 1 ∧
      (parse_robot_results ⟨XmlParse.raisesOnParse msg, lg, rp⟩ 0).tests_passed = 1 ∧
      (parse_robot_results ⟨XmlParse.raisesOnParse msg, lg, rp⟩ 0).tests_failed = 0) := by
  obtain ⟨cs, rsp, pe⟩ := script
  obtain ⟨rc, od, vp, rr, ct, st, et⟩ := env
  obtain ⟨xml, lg, rp⟩ := od
  simp only at hpath hex hrun hxml hrc
  subst hex hrun hxml hrc
  rw [Option.isSome_iff_exists] at hpath
  obtain ⟨p, hp⟩ := hpath
  subst hp
  refine ⟨?_, ?_, ?_, ?_, by simp [parse_robot_results], by intro msg lg' rp'; simp [parse_robot_results]⟩ <;>
    cases vp <;>
      simp [execute_script, execute_script_run, run_robot_script, parse_robot_results]

/-- C1 amended, witnessed at a concrete run. -/
theorem c1_witness :
    (execute_script ⟨"completed", some "w1.robot", true⟩ true
      ⟨0, ⟨XmlParse.absent, true, true⟩, none, none, 3, 4, 9⟩).status =
        ExecutionStatus.passed ∧
    (execute_script ⟨"completed", some "w1.robot", true⟩ true
      ⟨0, ⟨XmlParse.absent, true, true⟩, none, none, 3, 4, 9⟩).tests_total = 0 ∧
    (execute_script ⟨"completed", some "w1.robot", true⟩ true
      ⟨0, ⟨XmlParse.absent, true, true⟩, none, none, 3, 4, 9⟩).tests_passed = 0 ∧
    (execute_script ⟨"completed", some "w1.robot", true⟩ true
      ⟨0, ⟨XmlParse.absent, true, true⟩, none, none, 3, 4, 9⟩).tests_failed = 0 ∧
    (parse_robot_results ⟨XmlParse.absent, true, true⟩ 0).success = true ∧
    (∀ (msg : String) (lg rp : Bool),
      (parse_robot_results ⟨XmlParse.raisesOnParse msg, lg, rp⟩ 0).tests_total = 1 ∧
      (parse_robot_results ⟨XmlParse.raisesOnParse msg, lg, rp⟩ 0).tests_passed = 1 ∧
      (parse_robot_results ⟨XmlParse.raisesOnParse msg, lg, rp⟩ 0).tests_failed = 0) :=
  c1_amended ⟨"completed", some "w1.robot", true⟩
    ⟨0, ⟨XmlParse.absent, true, true⟩, none, none, 3, 4, 9⟩
    (by decide) rfl rfl rfl rfl

/-- C2: evaluation at the failing input.  Cancelling a running record whose
`started_at` came back naive from the database performs the subtraction
`completed_at - started_at` with an aware left operand and no normalization,
so it raises `TypeError` and the session is rolled back — the record keeps its
`running` status and gets no duration.  By contrast, the executor's own
completion path normalizes both timestamps and computes the duration. -/
theorem c2_cancel_subtracts_unnormalized :
    (cancel_execution ⟨true, true, false⟩
        { mkPendingRecord 100 false true with status := ExecutionStatus.running }
        200 "alice") =
      (CancelResponse.failure
        "Failed to cancel execution: TypeError: cannot subtract offset-naive and offset-aware datetimes",
       { mkPendingRecord 100 false true with status := ExecutionStatus.running }) ∧
    (pySubSeconds ⟨200, true⟩ ⟨100, false⟩).toOption = none ∧
    (execute_script ⟨"completed", some "x.robot", true⟩ true
      ⟨0, ⟨XmlParse.absent, false, false⟩, none, none, 100, 110, 130⟩).duration_seconds =
      some 20 := by
  decide

/-- C7: evaluation at the failing input.  A single run completing with one
passing test stores counters `tests_total = 1, tests_passed = 1` but leaves
the `pass_rate` column `NULL` — no code path ever assigns it, although the
status route, the emailer and the analytics module read it as a number. -/
theorem c7_pass_rate_never_set :
    (execute_script ⟨"completed", some "t.robot", true⟩ true
      ⟨0, ⟨XmlParse.suiteStats 1 1 0, true, true⟩, none, none, 5, 6, 9⟩).status =
        ExecutionStatus.passed ∧
    (execute_script ⟨"completed", some "t.robot", true⟩ true
      ⟨0, ⟨XmlParse.suiteStats 1 1 0, true, true⟩, none, none, 5, 6, 9⟩).tests_total = 1 ∧
    (execute_script ⟨"completed", some "t.robot", true⟩ true
      ⟨0, ⟨XmlParse.suiteStats 1 1 0, true, true⟩, none, none, 5, 6, 9⟩).tests_passed = 1 ∧
    (execute_script ⟨"completed", some "t.robot", true⟩ true
      ⟨0, ⟨XmlParse.suiteStats 1 1 0, true, true⟩, none, none, 5, 6, 9⟩).pass_rate = none := by
  decide

/-- C3: a TestCase whose conversion status is not `completed`, or whose robot
artifact path is missing, or whose artifact file does not exist, is rejected
by the execute route with a descriptive error, and no `ExecutionResult`
record is created at all — in particular none in the `running` state. -/
theorem c3_reject_unexecutable (renv : RouteEnv) (script : ScriptRow)
    (headless : Bool) (env : RunEnv)
    (hcsrf : renv.csrf_ok = true) (hacc : renv.can_access = true)
    (hbad : script.conversion_status ≠ "completed" ∨
            script.robot_script_path = none ∨ script.path_exists = false) :
    ∃ msg, execute_single_script renv script headless env = (.failure msg, []) ∧
      (msg = "Script is not ready for execution. Please ensure it has been converted to Robot Framework format." ∨
       msg = "Robot Framework script file not found") := by
  unfold execute_single_script
  rw [hcsrf, hacc]
  simp only [Bool.true_eq_false, if_false]
  by_cases hready : script.conversion_status ≠ "completed" ∨ script.robot_script_path = none
  · exact ⟨_, if_pos hready, Or.inl rfl⟩
  · have hpe : script.path_exists = false := by
      rcases hbad with h | h | h
      · exact absurd (Or.inl h) hready
      · exact absurd (Or.inr h) hready
      · exact h
    rw [if_neg hready, if_pos hpe]
    exact ⟨_, rfl, Or.inr rfl⟩

/-- C3, witnessed: an untranslated script is rejected with the readiness
error and no record is created. -/
theorem c3_witness :
    ∃ msg, execute_single_script ⟨true, true, true⟩ ⟨"pending", none, false⟩ true
        ⟨0, ⟨XmlParse.absent, false, false⟩, none, none, 1, 2, 3⟩ = (.failure msg, []) ∧
      (msg = "Script is not ready for execution. Please ensure it has been converted to Robot Framework format." ∨
       msg = "Robot Framework script file not found") :=
  c3_reject_unexecutable ⟨true, true, true⟩ ⟨"pending", none, false⟩ true
    ⟨0, ⟨XmlParse.absent, false, false⟩, none, none, 1, 2, 3⟩ rfl rfl
    (by decide)

/-- C4 counterexample: a suite run over one translated script whose robot file
does not exist produces a record in status `error`, but its error detail is
`No valid Robot Framework scripts found`, not `no tests executed`; and a suite
run whose translated-script set is empty produces no record at all. -/
theorem c4_counterexample :
    ((execute_suite_async [⟨"completed", some "m.robot", false⟩] true
        ⟨0, ⟨XmlParse.absent, false, false⟩, none, none, 1, 2, 3⟩).map
          ExecutionResult.status = some ExecutionStatus.error) ∧
    ((execute_suite_async [⟨"completed", some "m.robot", false⟩] true
        ⟨0, ⟨XmlParse.absent, false, false⟩, none, none, 1, 2, 3⟩).map
          ExecutionResult.error_message =
        some (some "No valid Robot Framework scripts found")) ∧
    ((execute_suite_async [⟨"completed", some "m.robot", false⟩] true
        ⟨0, ⟨XmlParse.absent, false, false⟩, none, none, 1, 2, 3⟩).map
          ExecutionResult.error_message ≠ some (some "no tests executed")) ∧
    (execute_suite_async [] true
        ⟨0, ⟨XmlParse.absent, false, false⟩, none, none, 1, 2, 3⟩ = none) := by
  decide

/-- C4 (amended): a suite run whose translated scripts all lack an existing
robot artifact yields a record in status `error` with error detail
`No valid Robot Framework scripts found`; when no script is translated at all,
`execute_suite_async` returns without creating any record. -/
theorem c4_amended (scripts : List ScriptRow) (headless : Bool) (env : RunEnv) :
    ((scripts.filter (fun s => s.conversion_status == "completed")) ≠ [] →
      (scripts.filter (fun s => s.conversion_status == "completed")).filter
          (fun s => s.robot_script_path.isSome && s.path_exists) = [] →
      ∃ record, execute_suite_async scripts headless env = some record ∧
        record.status = ExecutionStatus.error ∧
        record.error_message = some "No valid Robot Framework scripts found") ∧
    ((scripts.filter (fun s => s.conversion_status == "completed")) = [] →
      execute_suite_async scripts headless env = none) := by
  constructor
  · intro hne hvalid
    have hconv : (scripts.filter (fun s => s.conversion_status == "completed")).isEmpty = false := by
      simpa [List.isEmpty_iff] using hne
    have hrun : run_robot_suite
        (scripts.filter (fun s => s.conversion_status == "completed")) env =
        ParseResult.failure "No valid Robot Framework scripts found" := by
      unfold run_robot_suite
      rw [hvalid]
      rfl
    refine ⟨(execute_suite_run
        (scripts.filter (fun s => s.conversion_status == "completed")) headless env).1,
      ?_, ?_, ?_⟩
    · unfold execute_suite_async
      simp [hconv]
    · unfold execute_suite_run
      dsimp only
      rw [hrun]
      rfl
    · unfold execute_suite_run
      dsimp only
      rw [hrun]
      rfl
  · intro hempty
    unfold execute_suite_async
    simp [hempty]

/-- C4 amended, witnessed at a concrete suite. -/
theorem c4_witness :
    (∃ record,
      execute_suite_async [⟨"completed", none, true⟩] false
          ⟨0, ⟨XmlParse.absent, false, false⟩, none, none, 4, 5, 6⟩ = some record ∧
        record.status = ExecutionStatus.error ∧
        record.error_message = some "No valid Robot Framework scripts found") ∧
    execute_suite_async [⟨"pending", some "y.robot", true⟩] false
        ⟨0, ⟨XmlParse.absent, false, false⟩, none, none, 4, 5, 6⟩ = none :=
  ⟨(c4_amended [⟨"completed", none, true⟩] false
      ⟨0, ⟨XmlParse.absent, false, false⟩, none, none, 4, 5, 6⟩).1
        (by decide) (by decide),
   (c4_amended [⟨"pending", some "y.robot", true⟩] false
      ⟨0, ⟨XmlParse.absent, false, false⟩, none, none, 4, 5, 6⟩).2 (by decide)⟩

/-- C5 counterexample: cancelling a running record (a permitted cancellation)
whose `started_at` came back naive from the database does not force the record
into the `error` terminal state — the duration subtraction raises, the session
is rolled back and the record is left `running`. -/
theorem c5_counterexample :
    ((cancel_execution ⟨true, true, false⟩
        { mkPendingRecord 50 false true with status := ExecutionStatus.running }
        75 "bob").2.status = ExecutionStatus.running) ∧
    ((cancel_execution ⟨true, true, false⟩
        { mkPendingRecord 50 false true with status := ExecutionStatus.running }
        75 "bob").1 ≠ CancelResponse.success) := by
  decide

/-- C5 (amended): (a) cancellation never moves a record out of a terminal
state and only ever reports success from `pending` or `running`; (b) the
executor's committed states go `pending → running → terminal`, so a terminal
status is never transitioned out of within a run; (c) a permitted
cancellation whose duration subtraction does not fault — `started_at` unset,
or aware like the fresh `completed_at` — forces the record into the `error`
terminal state with detail `Cancelled by <actor>`; when `started_at` is naive
the subtraction raises and the record is left unchanged. -/
theorem c5_amended :
    (∀ (renv : RouteEnv) (record : ExecutionResult) (now_val : Int) (actor : String),
      record.status.isTerminal = true →
        (cancel_execution renv record now_val actor).2 = record ∧
        (cancel_execution renv record now_val actor).1 ≠ CancelResponse.success) ∧
    (∀ (renv : RouteEnv) (record : ExecutionResult) (now_val : Int) (actor : String),
      record.status ≠ ExecutionStatus.pending → record.status ≠ ExecutionStatus.running →
        (cancel_execution renv record now_val actor).1 ≠ CancelResponse.success ∧
        (cancel_execution renv record now_val actor).2 = record) ∧
    (∀ (renv : RouteEnv) (record : ExecutionResult) (now_val : Int) (actor : String),
      renv.csrf_ok = true → renv.can_access = true →
      (record.status = ExecutionStatus.pending ∨ record.status = ExecutionStatus.running) →
      (record.started_at = none ∨ ∃ st, record.started_at = some st ∧ st.aware = true) →
        (cancel_execution renv record now_val actor).1 = CancelResponse.success ∧
        (cancel_execution renv record now_val actor).2.status = ExecutionStatus.error ∧
        (cancel_execution renv record now_val actor).2.status.isTerminal = true ∧
        (cancel_execution renv record now_val actor).2.error_message =
          some ("Cancelled by " ++ actor) ∧
        (cancel_execution renv record now_val actor).2.completed_at = some ⟨now_val, false⟩) ∧
    (∀ (script : ScriptRow) (headless : Bool) (env : RunEnv),
      (execute_script_run script headless env).2.map ExecutionResult.status =
        [ExecutionStatus.pending, ExecutionStatus.running,
         (execute_script_run script headless env).1.status] ∧
      (execute_script_run script headless env).1.status.isTerminal = true) := by
  refine ⟨?_, ?_, ?_, fun script headless env => execute_script_run_trace script headless env⟩
  · intro renv record now_val actor hterm
    have hnp : record.status ≠ ExecutionStatus.pending := by
      intro h
      rw [h] at hterm
      exact absurd hterm (by decide)
    have hnr : record.status ≠ ExecutionStatus.running := by
      intro h
      rw [h] at hterm
      exact absurd hterm (by decide)
    unfold cancel_execution
    obtain ⟨co, ca, ub⟩ := renv
    cases co <;> cases ca <;>
      simp_all [cancel_execution]
  · intro renv record now_val actor hnp hnr
    unfold cancel_execution
    obtain ⟨co, ca, ub⟩ := renv
    cases co <;> cases ca <;>
      simp_all [cancel_execution]
  · intro renv record now_val actor hcsrf hacc hstat hst
    have hcond : ¬ (record.status ≠ ExecutionStatus.pending ∧
        record.status ≠ ExecutionStatus.running) := by
      rcases hstat with h | h <;> simp [h]
    rcases hst with hnone | ⟨st, hsome, haware⟩
    · simp [cancel_execution, hcsrf, hacc, hcond, hnone, dbRoundTrip,
        ExecutionStatus.isTerminal]
    · have hsub : pySubSeconds ⟨now_val, true⟩ st =
          Except.ok (now_val - st.val) := by
        unfold pySubSeconds
        rw [haware]
        rfl
      simp [cancel_execution, hcsrf, hacc, hcond, hsome, hsub, dbRoundTrip,
        ExecutionStatus.isTerminal]

/-- C5 amended, witnessed: cancelling a concrete pending record with no
`started_at` succeeds and forces `error` with the `Cancelled by` detail. -/
theorem c5_witness :
    (cancel_execution ⟨true, true, true⟩
        { mkPendingRecord 7 false false with started_at := none } 30 "carol").1 =
      CancelResponse.success ∧
    (cancel_execution ⟨true, true, true⟩
        { mkPendingRecord 7 false false with started_at := none } 30 "carol").2.status =
      ExecutionStatus.error ∧
    (cancel_execution ⟨true, true, true⟩
        { mkPendingRecord 7 false false with started_at := none } 30 "carol").2.status.isTerminal =
      true ∧
    (cancel_execution ⟨true, true, true⟩
        { mkPendingRecord 7 false false with started_at := none } 30 "carol").2.error_message =
      some ("Cancelled by " ++ "carol") ∧
    (cancel_execution ⟨true, true, true⟩
        { mkPendingRecord 7 false false with started_at := none } 30 "carol").2.completed_at =
      some ⟨30, false⟩ :=
  c5_amended.2.2.1 ⟨true, true, true⟩
    { mkPendingRecord 7 false false with started_at := none } 30 "carol"
    rfl rfl (Or.inl rfl) (Or.inl rfl)

/-- C6: the translation boundary is total — it returns a tagged
success/failure result — and every failure (service unconfigured or
unreachable, malformed response, missing or unwritable artifact, unreadable
source) leaves the TestCase with conversion status `failed` and a populated
error detail. -/
theorem c6_translation_failure_sets_state (s0 : ScriptConvRow) (env : ConvEnv)
    (msg : String) :
    (convert_script_sync (some s0) env).1 = SyncConvResult.err msg →
    ∃ s1, (convert_script_sync (some s0) env).2 = some s1 ∧
      s1.conversion_status = "failed" ∧ s1.conversion_error.isSome = true := by
  unfold convert_script_sync
  dsimp only
  split
  · intro _
    exact ⟨_, rfl, rfl, rfl⟩
  · split
    · intro _
      exact ⟨_, rfl, rfl, rfl⟩
    · split
      · split
        · intro h
          simp at h
        · intro _
          exact ⟨_, rfl, rfl, rfl⟩
      · intro _
        exact ⟨_, rfl, rfl, rfl⟩

/-- C6, witnessed: an unconfigured generation service yields a tagged failure
and marks the script `failed` with the error detail populated. -/
theorem c6_witness :
    ∃ s1, (convert_script_sync
        (some ⟨"pending", none, some "pw.py", true, none⟩)
        ⟨Except.ok "content", none, none, AIOutcome.ok "code", none, "r.robot"⟩).2 =
      some s1 ∧ s1.conversion_status = "failed" ∧ s1.conversion_error.isSome = true :=
  c6_translation_failure_sets_state ⟨"pending", none, some "pw.py", true, none⟩
    ⟨Except.ok "content", none, none, AIOutcome.ok "code", none, "r.robot"⟩
    "Azure OpenAI credentials not configured. Please check your API credentials."
    (by decide)

/-- C8 counterexample: a generated document with neither mandatory header gets
only the `*** Settings ***` prefix injected; the stored translation still
lacks `*** Test Cases ***`, so not every stored document contains both
headers. -/
theorem c8_counterexample :
    convert_playwright_to_robot (some "https://svc") (some "key")
        (AIOutcome.ok "Log    Hello") =
      ConvResult.ok (settingsInjection ++ "Log    Hello") ∧
    strContainsSub (settingsInjection ++ "Log    Hello") "*** Settings ***" = true ∧
    strContainsSub (settingsInjection ++ "Log    Hello") "*** Test Cases ***" = false := by
  decide

/-- C8 (amended): post-validation checks both mandatory headers but only
injects a missing `*** Settings ***` header (as a minimal prefix); a missing
`*** Test Cases ***` header is merely logged.  Hence every stored translated
document contains the `*** Settings ***` header, but not necessarily
`*** Test Cases ***`. -/
theorem c8_amended (s : String) :
    strContainsSub (enhance_robot_script s) "*** Settings ***" = true ∧
    (strContainsSub s "*** Settings ***" = true → enhance_robot_script s = s) ∧
    (strContainsSub s "*** Settings ***" = false →
      enhance_robot_script s = settingsInjection ++ s) := by
  refine ⟨?_, ?_, ?_⟩
  · unfold enhance_robot_script
    split
    · assumption
    · unfold strContainsSub
      rw [string_data_append]
      have hd : settingsInjection.data =
          ("*** Settings ***" : String).data ++ ("\nLibrary    Browser\n\n" : String).data := by
        decide
      rw [hd, List.append_assoc]
      exact containsSub_of_startsWith _ _ (startsWithList_self_append _ _)
  · intro h
    unfold enhance_robot_script
    rw [if_pos h]
  · intro h
    unfold enhance_robot_script
    rw [if_neg (by simp [h])]

/-- C8 amended, witnessed: a document without the settings header gets it
injected as the minimal prefix. -/
theorem c8_witness :
    strContainsSub (enhance_robot_script "Log    Hi") "*** Settings ***" = true ∧
    enhance_robot_script "Log    Hi" = settingsInjection ++ "Log    Hi" :=
  ⟨(c8_amended "Log    Hi").1, (c8_amended "Log    Hi").2.2 (by decide)⟩

/-- C9 counterexample: starting a new session for a key with an active session
tears the old one down, but if the new external process fails to launch there
is no active session afterwards for that key (the stale, terminated entry is
still registered), not exactly one. -/
theorem c9_counterexample :
    (start_recording_session [("proj_test", ⟨true, true, true⟩)] "proj_test"
        false true).1 = false ∧
    activeCount (start_recording_session [("proj_test", ⟨true, true, true⟩)]
        "proj_test" false true).2 "proj_test" = 0 ∧
    regFind (start_recording_session [("proj_test", ⟨true, true, true⟩)]
        "proj_test" false true).2 "proj_test" = some ⟨false, false, true⟩ := by
  decide

/-- C9 (amended): starting a session first tears down any prior session under
the key; when the new process launches successfully exactly one active session
remains under the key (the fresh one), and when the launch fails there is no
active session under the key. -/
theorem c9_amended (reg : Registry) (key : String) (content : Bool) :
    regFind (start_recording_session reg key true content).2 key =
      some ⟨true, true, content⟩ ∧
    activeCount (start_recording_session reg key true content).2 key = 1 ∧
    activeCount (start_recording_session reg key false content).2 key = 0 := by
  refine ⟨?_, ?_, ?_⟩
  · unfold start_recording_session
    dsimp only
    exact regFind_regSet _ key _
  · unfold start_recording_session activeCount
    simp [regFind_regSet]
  · unfold start_recording_session
    dsimp only
    cases hfind : regFind reg key with
    | none => simp [hfind, activeCount]
    | some r => simp [hfind, activeCount, regFind_regSet, Recorder.cleanup]

/-- C10: when stopping a session fails (here: the process produced no output
content), the registry entry is still deleted, and a subsequent stop for the
same key reports that no active recording session exists. -/
theorem c10_stop_failure_removes_entry (reg : Registry) (key : String)
    (r : Recorder)
    (hnodup : (reg.map Prod.fst).Nodup)
    (hfind : regFind reg key = some r)
    (halive : r.process_alive = true) (hrec : r.is_recording = true)
    (hcontent : r.has_output_content = false) :
    (stop_recording_session reg key).1 =
      { success := false, error := some "No script content was generated" } ∧
    regFind (stop_recording_session reg key).2 key = none ∧
    stop_recording_session (stop_recording_session reg key).2 key =
      ({ success := false, error := some "No active recording session found" },
       (stop_recording_session reg key).2) := by
  have hstop : r.stop_recording =
      ({ success := false, error := some "No script content was generated" },
       { r with process_alive := false, is_recording := false }) := by
    unfold Recorder.stop_recording
    rw [halive, hrec, hcontent]
    simp
  have hdel : regFind (regDel reg key) key = none :=
    regFind_regDel_self reg key hnodup
  refine ⟨?_, ?_, ?_⟩
  · simp [stop_recording_session, hfind, hstop]
  · simp [stop_recording_session, hfind, hstop, hdel]
  · simp [stop_recording_session, hfind, hstop, hdel]

/-- C10, witnessed at a concrete one-entry registry. -/
theorem c10_witness :
    (stop_recording_session [("p_s", ⟨true, true, false⟩)] "p_s").1 =
      { success := false, error := some "No script content was generated" } ∧
    regFind (stop_recording_session [("p_s", ⟨true, true, false⟩)] "p_s").2 "p_s" =
      none ∧
    stop_recording_session
        (stop_recording_session [("p_s", ⟨true, true, false⟩)] "p_s").2 "p_s" =
      ({ success := false, error := some "No active recording session found" },
       (stop_recording_session [("p_s", ⟨true, true, false⟩)] "p_s").2) :=
  c10_stop_failure_removes_entry [("p_s", ⟨true, true, false⟩)] "p_s"
    ⟨true, true, false⟩ (by decide) rfl rfl rfl rfl
